import Mathlib

/-!
Verification of the `nirspec_resolution` repository against its specification.

The development shallowly embeds the two source files:

* `src/util.py` — line-shape library (Gaussian / Lorentzian / Voigt profiles,
  their definite integrals and pixel-integrated versions), the composite model
  builder, the inverse-variance-weighted linear solver with its non-negative
  least-squares fallback, the coupled two-spectrum solver, and the spectral
  segment extractor.
* `src/spec_slice.py` — the static line-group catalog lookup
  `get_spectra_slice_specs`.

Floating-point numbers are modelled as real numbers `ℝ`; `numpy` arrays as
`List ℝ` (a matrix is represented by its list of columns, matching how the
source assembles `np.array(line_models).T`).  Catalog wavelengths are exact
decimal literals, modelled as rationals so the catalog stays executable.
External library routines (`np.linalg.lstsq`, `scipy.optimize.nnls`,
`scipy.special.voigt_profile`, `scipy.special.erf`) are external collaborators:
the two solvers are abstract parameters of the embedded fitting functions, and
`erf` / `voigt_profile` are modelled by their mathematical definitions.

Python partial behaviour that all claims exclude by hypothesis (an
`IndexError` when a wavelength grid has fewer than two samples, a `NameError`
when the line list is empty) is totalised with `List.getD` / `List.getLastD`;
every theorem below carries the corresponding non-degeneracy hypotheses.
-/

/-- Speed of light in km/s (`util.py`, line 1: `light_speed = 299792.458`). -/
noncomputable def light_speed : ℝ := 299792.458

/-- Model of `scipy.special.erf`: the Gauss error function
`erf x = 2/√π · ∫ t in 0..x, exp (−t²)`.  External collaborator of
`integrate_gaussian`. -/
noncomputable def erf (x : ℝ) : ℝ :=
  2 / Real.sqrt Real.pi * ∫ t in (0 : ℝ)..x, Real.exp (-t ^ 2)

/-- `util.py` `integrate_gaussian(a, b, mu, fwhm)`:
`sigma = fwhm / 2.355`; returns
`sigma * sqrt(pi/2) * (erf((b-mu)/(sqrt 2 * sigma)) - erf((a-mu)/(sqrt 2 * sigma)))`.
The source applies this elementwise over arrays; this is the scalar kernel. -/
noncomputable def integrate_gaussian (a b mu fwhm : ℝ) : ℝ :=
  let sigma := fwhm / 2.355
  sigma * Real.sqrt (Real.pi / 2)
    * (erf ((b - mu) / (Real.sqrt 2 * sigma)) - erf ((a - mu) / (Real.sqrt 2 * sigma)))

/-- `util.py` `integrate_lorentzian(a, b, mu, fwhm)`:
`gamma = fwhm / 2`; returns `(arctan((b-mu)/gamma) - arctan((a-mu)/gamma)) / pi`.
Scalar kernel of the elementwise array operation. -/
noncomputable def integrate_lorentzian (a b mu fwhm : ℝ) : ℝ :=
  let gamma := fwhm / 2
  (Real.arctan ((b - mu) / gamma) - Real.arctan ((a - mu) / gamma)) / Real.pi

/-- Normalized (unit-area) Gaussian density, the `gamma = 0` limit of
`scipy.special.voigt_profile`. -/
noncomputable def gaussian_pdf (x sigma : ℝ) : ℝ :=
  Real.exp (-(x ^ 2) / (2 * sigma ^ 2)) / (sigma * Real.sqrt (2 * Real.pi))

/-- Normalized (unit-area) Lorentzian/Cauchy density, the `sigma = 0` limit of
`scipy.special.voigt_profile`. -/
noncomputable def cauchy_pdf (x gamma : ℝ) : ℝ :=
  gamma / (Real.pi * (x ^ 2 + gamma ^ 2))

/-- Model of `scipy.special.voigt_profile(x, sigma, gamma)`: the area-normalized
Voigt profile, i.e. the convolution of the unit-area Gaussian of standard
deviation `sigma` with the unit-area Lorentzian of half-width `gamma`; scipy
documents the special cases `gamma = 0` (Gaussian density) and `sigma = 0`
(Cauchy density), which the convolution integral does not cover. -/
noncomputable def voigt_profile (x sigma gamma : ℝ) : ℝ :=
  if gamma = 0 then gaussian_pdf x sigma
  else if sigma = 0 then cauchy_pdf x gamma
  else ∫ t : ℝ, gaussian_pdf t sigma * cauchy_pdf (x - t) gamma

/-- Mean of a list of reals (`np.mean(x)`); `0` on the empty list (numpy
returns NaN there, a case excluded by every claim's hypotheses). -/
noncomputable def listMean (x : List ℝ) : ℝ := x.sum / x.length

/-- `util.py` `get_lorentzian(x, mu, fwhm, amp, continuum_amp, continuum_slope)`:
`gamma = fwhm / 2`; elementwise
`amp * gamma / ((x - mu)^2 + gamma^2) / pi + continuum_amp + (x - mean x) * continuum_slope`. -/
noncomputable def get_lorentzian (x : List ℝ) (mu fwhm amp continuum_amp continuum_slope : ℝ) :
    List ℝ :=
  let gamma := fwhm / 2
  x.map (fun xi =>
    amp * gamma / ((xi - mu) ^ 2 + gamma ^ 2) / Real.pi
      + continuum_amp + (xi - listMean x) * continuum_slope)

/-- `util.py` `get_gaussian(x, mu, fwhm, gaussian_amp, continuum_amp, continuum_slope)`:
`sigma = fwhm / 2.355`; elementwise
`gaussian_amp * exp(-(x - mu)^2 / (2 sigma^2)) + continuum_amp + (x - mean x) * continuum_slope`. -/
noncomputable def get_gaussian (x : List ℝ) (mu fwhm gaussian_amp continuum_amp continuum_slope : ℝ) :
    List ℝ :=
  let sigma := fwhm / 2.355
  x.map (fun xi =>
    gaussian_amp * Real.exp (-((xi - mu) ^ 2) / (2 * sigma ^ 2))
      + continuum_amp + (xi - listMean x) * continuum_slope)

/-- `util.py` `get_voigt(x, mu, fwhm, gamma, amp, continuum_amp, continuum_slope)`:
`sigma = fwhm / 2.355`; elementwise
`amp * voigt_profile(x - mu, sigma, gamma) + continuum_amp + (x - mean x) * continuum_slope`. -/
noncomputable def get_voigt (x : List ℝ) (mu fwhm gamma amp continuum_amp continuum_slope : ℝ) :
    List ℝ :=
  let sigma := fwhm / 2.355
  x.map (fun xi =>
    amp * voigt_profile (xi - mu) sigma gamma
      + continuum_amp + (xi - listMean x) * continuum_slope)

/-- Scalar kernel of `util.py` `integrate_voigt`: the source loops
`scipy.integrate.quad(voigt_profile, a - mu, b - mu, args=(sigma, gamma))`
over paired bounds; each entry is this interval integral with
`sigma = fwhm / 2.355`. -/
noncomputable def integrate_voigt_point (a b mu fwhm gamma : ℝ) : ℝ :=
  ∫ t in (a - mu)..(b - mu), voigt_profile t (fwhm / 2.355) gamma

/-- `util.py` `get_pixel_integrated_gaussian`:
`lambda_diff = x[1] - x[0]`, then elementwise
`gaussian_amp * integrate_gaussian(x - lambda_diff/2, x + lambda_diff/2, mu, fwhm)
 + continuum_amp + (x - mean x) * continuum_slope`.
Grids with fewer than two samples (Python `IndexError`) are totalised via
`List.getD`. -/
noncomputable def get_pixel_integrated_gaussian
    (x : List ℝ) (mu fwhm gaussian_amp continuum_amp continuum_slope : ℝ) : List ℝ :=
  let lambda_diff := x.getD 1 0 - x.getD 0 0
  x.map (fun xi =>
    gaussian_amp * integrate_gaussian (xi - lambda_diff / 2) (xi + lambda_diff / 2) mu fwhm
      + continuum_amp + (xi - listMean x) * continuum_slope)

/-- `util.py` `get_pixel_integrated_voigt` (same pixel-binning scheme, Voigt
kernel integrated numerically by `quad` in the source). -/
noncomputable def get_pixel_integrated_voigt
    (x : List ℝ) (mu fwhm gamma amp continuum_amp continuum_slope : ℝ) : List ℝ :=
  let lambda_diff := x.getD 1 0 - x.getD 0 0
  x.map (fun xi =>
    amp * integrate_voigt_point (xi - lambda_diff / 2) (xi + lambda_diff / 2) mu fwhm gamma
      + continuum_amp + (xi - listMean x) * continuum_slope)

/-- `util.py` `get_pixel_integrated_lorentzian` (same pixel-binning scheme,
Lorentzian kernel integrated in closed form). -/
noncomputable def get_pixel_integrated_lorentzian
    (x : List ℝ) (mu fwhm amp continuum_amp continuum_slope : ℝ) : List ℝ :=
  let lambda_diff := x.getD 1 0 - x.getD 0 0
  x.map (fun xi =>
    amp * integrate_lorentzian (xi - lambda_diff / 2) (xi + lambda_diff / 2) mu fwhm
      + continuum_amp + (xi - listMean x) * continuum_slope)

/-- The three recognized values of `util.py`'s `line_type` string argument
(`"gaussian"`, `"voigt"`, `"lorentzian"`); any other string raises
`ValueError` in `get_spectra_model`, a branch no claim exercises. -/
inductive LineType where
  | gaussian
  | voigt
  | lorentzian
deriving DecidableEq

/-- `util.py` `get_spectra_model(x, mu, fwhm, gaussian_amp, continuum_amp,
continuum_slope, line_type, voigt_gamma)`: dispatches to the pixel-integrated
profile that matches `line_type`. -/
noncomputable def get_spectra_model (x : List ℝ) (mu fwhm : ℝ)
    (gaussian_amp continuum_amp continuum_slope : ℝ)
    (line_type : LineType) (voigt_gamma : ℝ) : List ℝ :=
  match line_type with
  | .gaussian =>
      get_pixel_integrated_gaussian x mu fwhm gaussian_amp continuum_amp continuum_slope
  | .voigt =>
      get_pixel_integrated_voigt x mu fwhm voigt_gamma gaussian_amp continuum_amp continuum_slope
  | .lorentzian =>
      get_pixel_integrated_lorentzian x mu fwhm gaussian_amp continuum_amp continuum_slope

/-- The `fwhms` argument of the fitting entry points: either a Python float
(broadcast over the line list, `np.ones_like(lines) * fwhms`) or a per-line
sequence. -/
inductive Fwhms where
  | scalar (f : ℝ)
  | perLine (fs : List ℝ)

/-- The scalar-broadcast step at the top of `best_linear_fit_model` /
`best_linear_fit_model_simultaneous`: a scalar becomes a constant list of the
line-list's length, a sequence is used as given. -/
def resolveFwhms : Fwhms → List ℝ → List ℝ
  | .scalar f, lines => List.replicate lines.length f
  | .perLine fs, _ => fs

/-- Well-formedness of a `fwhms` argument for `n` lines: a scalar always fits,
a per-line sequence must have length `n`. -/
def fwhmsMatch : Fwhms → Nat → Prop
  | .scalar _, _ => True
  | .perLine fs, n => fs.length = n

/-- The model-vector construction inside `best_linear_fit_model`
(`util.py` lines 389–404): one `get_spectra_model` vector per
(fwhm, line) pair with `mu = line * (1 + velocity / light_speed)` and default
unit amplitude / zero continuum, followed by `np.ones_like(line_model)` and
`np.arange(len(line_model))` where `line_model` is the last line vector
(totalised by `getLastD` for the empty-lines case, a Python `NameError`). -/
noncomputable def best_linear_fit_model_vectors (velocity : ℝ) (fwhms : Fwhms)
    (wavelengths lines : List ℝ) (line_type : LineType) (voigt_gamma : ℝ) :
    List (List ℝ) :=
  let fs := resolveFwhms fwhms lines
  let line_models := (fs.zip lines).map (fun q =>
    get_spectra_model wavelengths (q.2 * (1 + velocity / light_speed)) q.1
      1 0 0 line_type voigt_gamma)
  let n := (line_models.getLastD []).length
  line_models ++ [List.replicate n (1 : ℝ), (List.range n).map (Nat.cast : ℕ → ℝ)]

/-- Row-weighting `A * np.sqrt(w)[:, np.newaxis]` with `w = 1 / noise**2`,
applied to a matrix given as its list of columns: every column is multiplied
elementwise by `sqrt (1 / noise^2)`. -/
noncomputable def weightCols (cols : List (List ℝ)) (noise : List ℝ) : List (List ℝ) :=
  cols.map (fun col => (col.zip noise).map (fun q => q.1 * Real.sqrt (1 / q.2 ^ 2)))

/-- `b * np.sqrt(w)` with `w = 1 / noise**2`. -/
noncomputable def weightVec (v noise : List ℝ) : List ℝ :=
  (v.zip noise).map (fun q => q.1 * Real.sqrt (1 / q.2 ^ 2))

/-- `A @ coeffs` for a matrix given by its list of columns: entry `i` of the
result is `Σ_j coeffs_j * col_j[i]`, with as many rows as the first column. -/
noncomputable def matVec (cols : List (List ℝ)) (coeffs : List ℝ) : List ℝ :=
  (List.range (cols.headD []).length).map (fun i =>
    ((cols.zip coeffs).map (fun q => q.1.getD i 0 * q.2)).sum)

/-- The singular-matrix error `np.linalg.LinAlgError` that the `try`/`except`
in `best_linear_fit_model` catches. -/
structure LinAlgError where

/-- Return value of `best_linear_fit_model`: the fitted curve alone, or the
curve together with the coefficient vector when `get_amp` is true. -/
inductive FitResult where
  | modelOnly (line_model : List ℝ)
  | withAmp (line_model : List ℝ) (coeffs : List ℝ)
deriving Inhabited

/-- `util.py` `best_linear_fit_model`.  The external solvers are parameters:
`lstsq` models `np.linalg.lstsq` (which may fail with `LinAlgError`), `nnls`
models `scipy.optimize.nnls` (total).  The function builds the model vectors,
weights the system by `sqrt (1 / noise^2)`, tries the unconstrained solve and
falls back to `nnls` exactly when `lstsq` raises, then reconstructs
`A @ coeffs` on the unweighted design matrix. -/
noncomputable def best_linear_fit_model
    (lstsq : List (List ℝ) → List ℝ → Except LinAlgError (List ℝ))
    (nnls : List (List ℝ) → List ℝ → List ℝ)
    (velocity : ℝ) (fwhms : Fwhms) (wavelengths spectra noise lines : List ℝ)
    (line_type : LineType) (voigt_gamma : ℝ) (get_amp : Bool) : FitResult :=
  let line_models := best_linear_fit_model_vectors velocity fwhms wavelengths lines
    line_type voigt_gamma
  let A_weighted := weightCols line_models noise
  let b_weighted := weightVec spectra noise
  let coeffs :=
    match lstsq A_weighted b_weighted with
    | .ok c => c
    | .error _ => nnls A_weighted b_weighted
  let line_model := matVec line_models coeffs
  if get_amp then .withAmp line_model coeffs else .modelOnly line_model

/-- `util.py` `best_linear_fit_model_simultaneous`.  Spectrum 1 is fit with the
non-negative solver `nnls` unconditionally (the function never consults an
unconstrained solver); spectrum 2 is fit, again by `nnls` on the same
inverse-variance weighting, with the three-column design matrix
`[combined template, ones, arange]` where the template reuses spectrum 1's
coefficients without their trailing constant/ramp entries (`coeffs[:-2]`). -/
noncomputable def best_linear_fit_model_simultaneous
    (nnls : List (List ℝ) → List ℝ → List ℝ)
    (velocity_1 : ℝ) (fwhms_1 : Fwhms) (velocity_2 : ℝ) (fwhms_2 : Fwhms)
    (wavelengths_1 spectra_1 noise_1 wavelengths_2 spectra_2 noise_2 lines : List ℝ) :
    List ℝ × List ℝ :=
  let fs1 := resolveFwhms fwhms_1 lines
  let fs2 := resolveFwhms fwhms_2 lines
  let triples := fs1.zip (fs2.zip lines)
  let line_models_1 := triples.map (fun q =>
    get_spectra_model wavelengths_1 (q.2.2 * (1 + velocity_1 / light_speed)) q.1
      1 0 0 .gaussian 1)
  let line_models_2 := triples.map (fun q =>
    get_spectra_model wavelengths_2 (q.2.2 * (1 + velocity_2 / light_speed)) q.2.1
      1 0 0 .gaussian 1)
  let n1len := (line_models_1.getLastD []).length
  let A := line_models_1 ++ [List.replicate n1len (1 : ℝ), (List.range n1len).map (Nat.cast : ℕ → ℝ)]
  let A_weighted := weightCols A noise_1
  let b_weighted := weightVec spectra_1 noise_1
  let coeffs := nnls A_weighted b_weighted
  let line_model_1 := matVec A coeffs
  let spec_model_2 := matVec line_models_2 (coeffs.take (coeffs.length - 2))
  let A_2 := [spec_model_2, List.replicate spec_model_2.length (1 : ℝ),
    (List.range spec_model_2.length).map (Nat.cast : ℕ → ℝ)]
  let coeffs_2 := nnls (weightCols A_2 noise_2) (weightVec spectra_2 noise_2)
  let line_model_2 := matVec A_2 coeffs_2
  (line_model_1, line_model_2)

/-- Numpy boolean-mask indexing `xs[mask]` for a mask of the same length:
keeps the entries of `xs` at the positions where the mask is `true`. -/
def applyMask {α : Type} : List Bool → List α → List α
  | true :: ms, x :: xs => x :: applyMask ms xs
  | false :: ms, _ :: xs => applyMask ms xs
  | _, _ => []

/-- `util.py` `get_spectra_cuts(start, end, wavelengths, spectra_1d, noise_1d)`:
the boolean mask `(wavelengths > start) & (wavelengths < end)` is computed from
the wavelength array and applied to all three parallel arrays. -/
noncomputable def get_spectra_cuts (start end_ : ℝ)
    (wavelengths spectra_1d noise_1d : List ℝ) : List ℝ × List ℝ × List ℝ :=
  let mask := wavelengths.map (fun w => decide (start < w) && decide (w < end_))
  (applyMask mask wavelengths, applyMask mask spectra_1d, applyMask mask noise_1d)

/-- One entry of `spec_slice.py`'s `line_library`: a wavelength window, the
group's display label, and the parallel sub-line label / rest-wavelength
lists (field spelled `line_wavlengths` as in the source). -/
structure LineGroup where
  min_lambda : ℚ
  max_lambda : ℚ
  main_line_name : String
  line_names : List String
  line_wavlengths : List ℚ
deriving DecidableEq

/-- Whether the character list `needle` occurs at the very start of `hay`. -/
def startsHere : List Char → List Char → Bool
  | [], _ => true
  | _ :: _, [] => false
  | a :: as, b :: bs => a == b && startsHere as bs

/-- Whether `needle` occurs as a contiguous sublist of `hay` (Python's
`needle in hay` on strings). -/
def subOccurs (needle : List Char) : List Char → Bool
  | [] => startsHere needle []
  | b :: bs => startsHere needle (b :: bs) || subOccurs needle bs

/-- Python `needle in hay` substring test on strings. -/
def containsSubstr (needle hay : String) : Bool :=
  subOccurs needle.data hay.data

/-- Python `str.upper()` restricted to the ASCII range (`Char.toUpper`); the
disperser identifiers this is applied to are ASCII. -/
def strUpper (s : String) : String := String.mk (s.data.map Char.toUpper)

/-- The unfiltered `line_library` of the `"G140"` branch of
`get_spectra_slice_specs` (`spec_slice.py` lines 18–110); the `Br epsilon`
entry is commented out in the source and therefore absent. -/
def g140Base : List LineGroup :=
  [{ min_lambda := 10020, max_lambda := 10100, main_line_name := "Pa$\\delta$",
     line_names := ["He ɪ", "He ɪ", "H ɪ", "He ɪ"],
     line_wavlengths := [10030.469746750001, 10033.900158100001, 10052.128,
       10074.806682083332] },
   { min_lambda := 10780, max_lambda := 10900, main_line_name := "He ɪ",
     line_names := ["He ɪ", "He ɪ", "He ɪ"],
     line_wavlengths := [10832.057471999999, 10833.216751, 10833.306444] },
   { min_lambda := 10910, max_lambda := 10990, main_line_name := "Pa$\\gamma$",
     line_names := ["He ɪ", "He ɪ", "H ɪ"],
     line_wavlengths := [10915.991686366666, 10920.0525431, 10941.09] },
   { min_lambda := 12760, max_lambda := 12885, main_line_name := "Pa$\\beta$",
     line_names := ["He ɪ", "He ɪ", "H ɪ", "He ɪ", "He ɪ"],
     line_wavlengths := [12788.43071063333, 12793.999402500001, 12821.59,
       12849.46706775, 12849.941156] },
   { min_lambda := 17350, max_lambda := 17430, main_line_name := "Br$\\zeta$",
     line_names := ["He ɪ", "He ɪ", "H ɪ", "He ɪ"],
     line_wavlengths := [17356.476694124285, 17358.26905142667, 17366.85,
       17379.688902016667] },
   { min_lambda := 18675, max_lambda := 18820, main_line_name := "Pa$\\alpha$",
     line_names := ["He ɪ", "He ɪ", "H ɪ"],
     line_wavlengths := [18690.442142149997, 18702.3180723, 18756.13] }]

/-- The `extended_lines` list of the `"G140"` branch (`spec_slice.py`
lines 119–183); the `Pa epsilon` entry is commented out in the source. -/
def g140ExtendedLines : List LineGroup :=
  [{ min_lambda := 8980, max_lambda := 9060, main_line_name := "Pa$\\eta$",
     line_names := ["He ɪ", "He ɪ", "He ɪ", "He II", "H ɪ"],
     line_wavlengths := [8999.4379225875, 8999.9904730, 9011.63606005, 9013.688,
       9017.385] },
   { min_lambda := 9190, max_lambda := 9290, main_line_name := "Pa$\\zeta$",
     line_names := ["He ɪ", "He I", "He I", "H I"],
     line_wavlengths := [9212.852746244444, 9215.75788475, 9227.763, 9231.547] }]

/-- The unfiltered `line_library` of the `"G235"` branch (`spec_slice.py`
lines 190–309); commented-out wavelengths are absent, so two groups carry
more labels than wavelengths, exactly as in the source. -/
def g235Base : List LineGroup :=
  [{ min_lambda := 16800, max_lambda := 16850, main_line_name := "Br$\\eta$",
     line_names := ["He ɪ", "He ɪ", "H ɪ"],
     line_wavlengths := [16801.156549285715, 16802.423072166664, 16811.111] },
   { min_lambda := 17300, max_lambda := 17440, main_line_name := "Br$\\zeta$",
     line_names := ["He ɪ", "He ɪ", "He ɪ", "H ɪ", "He ɪ"],
     line_wavlengths := [17340.3448365, 17356.476694124285, 17358.26905142667,
       17366.85, 17379.688902016667] },
   { min_lambda := 18655, max_lambda := 18840, main_line_name := "Pa$\\alpha$",
     line_names := ["He ɪ", "He ɪ", "H ɪ"],
     line_wavlengths := [18690.442142149997, 18702.3180723, 18756.13] },
   { min_lambda := 20555, max_lambda := 20660, main_line_name := "He ɪ",
     line_names := ["He ɪ", "He ɪ", "He ɪ"],
     line_wavlengths := [20586.904629999997, 20592.79265, 20607.463187666668] },
   { min_lambda := 21575, max_lambda := 21750, main_line_name := "Br$\\gamma$",
     line_names := ["He ɪ", "He ɪ", "He ɪ", "He ɪ", "He ɪ", "H ɪ"],
     line_wavlengths := [21613.70985955, 21622.905790999997, 21647.428962849997,
       21661.199999999997] },
   { min_lambda := 26180, max_lambda := 26350, main_line_name := "Br$\\beta$",
     line_names := ["He ɪ", "He ɪ", "He ɪ", "H ɪ"],
     line_wavlengths := [26192.12167798333, 26205.6152478, 26240.915984385712,
       26258.670000000002] },
   { min_lambda := 30350, max_lambda := 30480, main_line_name := "Pf$\\eta$",
     line_names := ["He ɪ", "He ɪ", "He ɪ", "He ɪ", "He ɪ", "H ɪ"],
     line_wavlengths := [30373.882203465, 30373.934701927996, 30379.13724103666,
       30392.022] }]

/-- The unfiltered `line_library` of the `"G395"` branch (`spec_slice.py`
lines 319–547); the `Humphrey iota` and `Humphrey kappa` entries are commented
out in the source. -/
def g395Base : List LineGroup :=
  [{ min_lambda := 30330, max_lambda := 30520, main_line_name := "Pf$\\eta$",
     line_names := ["He ɪ", "He ɪ", "He ɪ", "He ɪ", "He ɪ", "He ɪ", "H ɪ", "He ɪ"],
     line_wavlengths := [30337.957093580004, 30338.043565500004, 30338.14237,
       30373.934701927996, 30377.975075399998, 30379.406177666668, 30392.022,
       30399.158583] },
   { min_lambda := 37350, max_lambda := 37580, main_line_name := "Pf$\\gamma$",
     line_names := ["He ɪ", "He ɪ", "He ɪ", "H ɪ", "He ɪ", "He ɪ", "He ɪ", "He ɪ"],
     line_wavlengths := [37328.38483621667, 37381.94650391429, 37390.70984881429,
       37405.56, 37411.76899333333, 37412.07705, 37478.342826,
       37493.933000000005] },
   { min_lambda := 40300, max_lambda := 40730, main_line_name := "Br$\\alpha$",
     line_names := ["He ɪ", "He ɪ", "He ɪ", "He ɪ", "He ɪ", "H ɪ", "He ɪ", "He ɪ",
       "He ɪ", "He ɪ"],
     line_wavlengths := [40377.31950816667, 40391.224109999996, 40409.4473965,
       40490.157808985714, 40512.137976000005, 40522.62, 40544.661538,
       40545.048049000005, 40563.50551566667, 40574.5684] },
   { min_lambda := 42900, max_lambda := 43100, main_line_name := "He ɪ",
     line_names := ["He ɪ", "He ɪ", "He ɪ", "He ɪ", "He ɪ", "He ɪ"],
     line_wavlengths := [42954.167, 42959.1611, 42959.566699999996, 42959.90127,
       42959.905360000004, 42959.90569] },
   { min_lambda := 43725, max_lambda := 43900, main_line_name := "Hu$\\zeta$",
     line_names := ["He ɪ", "He ɪ", "He ɪ", "He ɪ", "He ɪ", "He ɪ", "H ɪ"],
     line_wavlengths := [43739.4215275, 43745.918667499995, 43746.04701666667,
       43746.1930395, 43746.2220454, 43746.46316571428, 43764.543999999994] },
   { min_lambda := 51230, max_lambda := 51450, main_line_name := "Hu$\\delta$",
     line_names := ["He ɪ", "He ɪ", "H ɪ"],
     line_wavlengths := [51263.32814807571, 51271.5462147, 51286.57] }]

/-- Mode filtering and `extend` handling of the `"G140"` branch:
`FS` pops the last group; `MSA` pops the last group then index 1; afterwards,
if `extend`, the extended groups are prepended and `pop(-2)`/`pop(-1)` remove
the then-last two groups. -/
def g140LineLibrary (mode : String) (extend : Bool) : List LineGroup :=
  let lib := g140Base
  let lib :=
    if mode = "FS" then lib.dropLast
    else if mode = "MSA" then lib.dropLast.eraseIdx 1
    else lib
  if extend then
    let lib2 := g140ExtendedLines ++ lib
    (lib2.eraseIdx (lib2.length - 2)).dropLast
  else lib

/-- Mode filtering of the `"G235"` branch: `FS` pops index 0 then the last
group; `MSA` pops index 0 then index 2 (of the shortened list); `extend` is
never consulted in this branch. -/
def g235LineLibrary (mode : String) : List LineGroup :=
  let lib := g235Base
  if mode = "FS" then (lib.eraseIdx 0).dropLast
  else if mode = "MSA" then (lib.eraseIdx 0).eraseIdx 2
  else lib

/-- Mode filtering of the `"G395"` branch: `FS` pops index 1 then the last
group; `MSA` pops index 2, then index 1, then the last group; `extend` is
never consulted in this branch. -/
def g395LineLibrary (mode : String) : List LineGroup :=
  let lib := g395Base
  if mode = "FS" then (lib.eraseIdx 1).dropLast
  else if mode = "MSA" then ((lib.eraseIdx 2).eraseIdx 1).dropLast
  else lib

/-- `spec_slice.py` `get_spectra_slice_specs(disperser, mode, extend)`:
upper-cases the disperser, dispatches on substring containment of `"G140"`,
`"G235"`, `"G395"` (in that order), and raises
`ValueError(f"Disperser {disperser} not recognized.")` otherwise. -/
def get_spectra_slice_specs (disperser mode : String) (extend : Bool) :
    Except String (List LineGroup) :=
  let d := strUpper disperser
  if containsSubstr "G140" d then Except.ok (g140LineLibrary mode extend)
  else if containsSubstr "G235" d then Except.ok (g235LineLibrary mode)
  else if containsSubstr "G395" d then Except.ok (g395LineLibrary mode)
  else Except.error ("Disperser " ++ d ++ " not recognized.")

/-- C7: for every `a`, `b`, `mu` and `fwhm > 0`, the definite Gaussian and
Lorentzian integrals are antisymmetric in their bounds:
`integrate_gaussian a b mu fwhm = -integrate_gaussian b a mu fwhm` and
likewise for `integrate_lorentzian`. -/
theorem integrate_antisymmetric (a b mu fwhm : ℝ) (h : 0 < fwhm) :
    integrate_gaussian a b mu fwhm = -integrate_gaussian b a mu fwhm ∧
    integrate_lorentzian a b mu fwhm = -integrate_lorentzian b a mu fwhm := by
  constructor
  · simp only [integrate_gaussian]; ring
  · simp only [integrate_lorentzian]; ring

/-- Witness for C7: the antisymmetry instance at `a = 0`, `b = 2`, `mu = 1`,
`fwhm = 1`. -/
theorem integrate_antisymmetric_witness :
    integrate_gaussian 0 2 1 1 = -integrate_gaussian 2 0 1 1 ∧
    integrate_lorentzian 0 2 1 1 = -integrate_lorentzian 2 0 1 1 :=
  integrate_antisymmetric 0 2 1 1 (by norm_num)

/-- C4 fails as stated: the Lorentzian of `util.py` is area-normalized, so its
value at `x = mu` with amplitude 1 and zero continuum is `1/π` for
`fwhm = 2`, not `1`. -/
theorem peak_amplitude_counterexample : get_lorentzian [0] 0 2 1 0 0 ≠ [1] := by
  intro h
  have h2 : Real.pi⁻¹ = 1 := by
    simpa [get_lorentzian, listMean] using h
  have h3 : Real.pi = 1 := inv_eq_one.mp h2
  linarith [Real.pi_gt_three]

/-- C4 amended: with amplitude 1 and zero continuum terms, only the Gaussian
peaks at `1` at `x = mu`; the Lorentzian's central value is `2 / (π * fwhm)`
and the Voigt's (shown at `gamma = 0`) is the area-normalized central density
`1 / ((fwhm / 2.355) * sqrt (2π))`. -/
theorem peak_amplitude_values (mu fwhm : ℝ) (h : 0 < fwhm) :
    get_gaussian [mu] mu fwhm 1 0 0 = [1] ∧
    get_lorentzian [mu] mu fwhm 1 0 0 = [2 / (Real.pi * fwhm)] ∧
    get_voigt [mu] mu fwhm 0 1 0 0 = [1 / (fwhm / 2.355 * Real.sqrt (2 * Real.pi))] := by
  have hf : fwhm ≠ 0 := ne_of_gt h
  have hp : Real.pi ≠ 0 := Real.pi_ne_zero
  refine ⟨?_, ?_, ?_⟩
  · simp [get_gaussian, listMean]
  · simp only [get_lorentzian, listMean, List.map, List.sum_cons, List.sum_nil,
      List.length_cons, List.length_nil]
    norm_num
    field_simp
    ring
  · simp [get_voigt, voigt_profile, gaussian_pdf, listMean]

/-- Witness for C4's amended theorem at `mu = 0`, `fwhm = 2.355`. -/
theorem peak_amplitude_values_witness :
    get_gaussian [0] 0 2.355 1 0 0 = [1] ∧
    get_lorentzian [0] 0 2.355 1 0 0 = [2 / (Real.pi * 2.355)] ∧
    get_voigt [0] 0 2.355 0 1 0 0 = [1 / (2.355 / 2.355 * Real.sqrt (2 * Real.pi))] :=
  peak_amplitude_values 0 2.355 (by norm_num)

/-- C8: a disperser whose upper-cased form contains none of the recognized
family identifiers `"G140"`, `"G235"`, `"G395"` makes
`get_spectra_slice_specs` fail with the invalid-input error, for every mode
and extend flag. -/
theorem unrecognized_disperser_error (disperser mode : String) (extend : Bool)
    (h1 : containsSubstr "G140" (strUpper disperser) = false)
    (h2 : containsSubstr "G235" (strUpper disperser) = false)
    (h3 : containsSubstr "G395" (strUpper disperser) = false) :
    get_spectra_slice_specs disperser mode extend =
      Except.error ("Disperser " ++ strUpper disperser ++ " not recognized.") := by
  simp [get_spectra_slice_specs, h1, h2, h3]

/-- Witness for C8 at disperser `"PRISM"`. -/
theorem unrecognized_disperser_error_witness :
    get_spectra_slice_specs "PRISM" "FS" false =
      Except.error ("Disperser " ++ strUpper "PRISM" ++ " not recognized.") :=
  unrecognized_disperser_error "PRISM" "FS" false (by decide) (by decide) (by decide)

/-- C6 fails as stated: for disperser `"G140"` the unfiltered library has 6
groups (not 7), so mode `"FS"` yields 5 groups (not 6) and mode `"MSA"`
yields 4 groups (not 5). -/
theorem g140_group_count_counterexample :
    Except.map List.length (get_spectra_slice_specs "G140" "FS" false) = Except.ok 5 ∧
    Except.map List.length (get_spectra_slice_specs "G140" "FS" false) ≠ Except.ok 6 ∧
    Except.map List.length (get_spectra_slice_specs "G140" "MSA" false) = Except.ok 4 ∧
    Except.map List.length (get_spectra_slice_specs "G140" "MSA" false) ≠ Except.ok 5 := by
  have hFS : Except.map List.length (get_spectra_slice_specs "G140" "FS" false) =
      Except.ok 5 := rfl
  have hMSA : Except.map List.length (get_spectra_slice_specs "G140" "MSA" false) =
      Except.ok 4 := rfl
  refine ⟨hFS, ?_, hMSA, ?_⟩
  · rw [hFS]; simp
  · rw [hMSA]; simp

/-- C6 amended: disperser `"G140"` with `extend = false` returns exactly 5
line groups in mode `"FS"` (one fewer than the unfiltered 6, the last group
removed) and exactly 4 in mode `"MSA"` (the last and second groups removed
from the base 6). -/
theorem g140_group_counts :
    get_spectra_slice_specs "G140" "FS" false = Except.ok g140Base.dropLast ∧
    Except.map List.length (get_spectra_slice_specs "G140" "FS" false) = Except.ok 5 ∧
    get_spectra_slice_specs "G140" "MSA" false = Except.ok (g140Base.dropLast.eraseIdx 1) ∧
    Except.map List.length (get_spectra_slice_specs "G140" "MSA" false) = Except.ok 4 ∧
    g140Base.length = 6 :=
  ⟨rfl, rfl, rfl, rfl, rfl⟩

/-- C9 fails as stated: for disperser `"G235"` (a recognized disperser) and
mode `"FS"` (a recognized mode), `extend = true` returns exactly the same
line-group list as `extend = false` — no additional group is included. -/
theorem extend_ignored_counterexample :
    get_spectra_slice_specs "G235" "FS" true = get_spectra_slice_specs "G235" "FS" false := rfl

/-- C9 amended: only the `"G140"` branch consults `extend`: for `"G140"` in
each recognized mode, `extend = true` yields at least one line group absent
from the `extend = false` result, while for `"G235"` and `"G395"` the result
is identical for every mode and extend flag. -/
theorem extend_only_affects_g140 :
    (∃ g, g ∈ g140LineLibrary "FS" true ∧ g ∉ g140LineLibrary "FS" false) ∧
    (∃ g, g ∈ g140LineLibrary "MSA" true ∧ g ∉ g140LineLibrary "MSA" false) ∧
    get_spectra_slice_specs "G140" "FS" true = Except.ok (g140LineLibrary "FS" true) ∧
    get_spectra_slice_specs "G140" "MSA" true = Except.ok (g140LineLibrary "MSA" true) ∧
    (∀ (mode : String) (extend : Bool),
      get_spectra_slice_specs "G235" mode extend = get_spectra_slice_specs "G235" mode false) ∧
    (∀ (mode : String) (extend : Bool),
      get_spectra_slice_specs "G395" mode extend = get_spectra_slice_specs "G395" mode false) := by
  refine ⟨by decide, by decide, rfl, rfl, ?_, ?_⟩
  · intro mode extend
    have h1 : containsSubstr "G140" (strUpper "G235") = false := by decide
    have h2 : containsSubstr "G235" (strUpper "G235") = true := by decide
    simp [get_spectra_slice_specs, h1, h2]
  · intro mode extend
    have h1 : containsSubstr "G140" (strUpper "G395") = false := by decide
    have h2 : containsSubstr "G235" (strUpper "G395") = false := by decide
    have h3 : containsSubstr "G395" (strUpper "G395") = true := by decide
    simp [get_spectra_slice_specs, h1, h2, h3]

/-- C10: for each recognized disperser and any mode other than `"FS"` and
`"MSA"` (with `extend = false`), `get_spectra_slice_specs` raises no error and
returns the full unfiltered base library, which has strictly more groups than
either recognized mode's result. -/
theorem unrecognized_mode_full_library (mode : String)
    (h1 : mode ≠ "FS") (h2 : mode ≠ "MSA") :
    (get_spectra_slice_specs "G140" mode false = Except.ok g140Base ∧
      Except.map List.length (get_spectra_slice_specs "G140" "FS" false) = Except.ok 5 ∧
      Except.map List.length (get_spectra_slice_specs "G140" "MSA" false) = Except.ok 4 ∧
      5 < g140Base.length ∧ 4 < g140Base.length) ∧
    (get_spectra_slice_specs "G235" mode false = Except.ok g235Base ∧
      Except.map List.length (get_spectra_slice_specs "G235" "FS" false) = Except.ok 5 ∧
      Except.map List.length (get_spectra_slice_specs "G235" "MSA" false) = Except.ok 5 ∧
      5 < g235Base.length ∧ 5 < g235Base.length) ∧
    (get_spectra_slice_specs "G395" mode false = Except.ok g395Base ∧
      Except.map List.length (get_spectra_slice_specs "G395" "FS" false) = Except.ok 4 ∧
      Except.map List.length (get_spectra_slice_specs "G395" "MSA" false) = Except.ok 3 ∧
      4 < g395Base.length ∧ 3 < g395Base.length) := by
  refine ⟨⟨?_, rfl, rfl, by decide, by decide⟩,
          ⟨?_, rfl, rfl, by decide, by decide⟩,
          ⟨?_, rfl, rfl, by decide, by decide⟩⟩
  · have hc : containsSubstr "G140" (strUpper "G140") = true := by decide
    simp [get_spectra_slice_specs, g140LineLibrary, hc, h1, h2]
  · have hc1 : containsSubstr "G140" (strUpper "G235") = false := by decide
    have hc2 : containsSubstr "G235" (strUpper "G235") = true := by decide
    simp [get_spectra_slice_specs, g235LineLibrary, hc1, hc2, h1, h2]
  · have hc1 : containsSubstr "G140" (strUpper "G395") = false := by decide
    have hc2 : containsSubstr "G235" (strUpper "G395") = false := by decide
    have hc3 : containsSubstr "G395" (strUpper "G395") = true := by decide
    simp [get_spectra_slice_specs, g395LineLibrary, hc1, hc2, hc3, h1, h2]

/-- Witness for C10 at mode `"PRISM"`. -/
theorem unrecognized_mode_full_library_witness :
    get_spectra_slice_specs "G140" "PRISM" false = Except.ok g140Base ∧
    get_spectra_slice_specs "G235" "PRISM" false = Except.ok g235Base ∧
    get_spectra_slice_specs "G395" "PRISM" false = Except.ok g395Base := by
  have h := unrecognized_mode_full_library "PRISM" (by decide) (by decide)
  exact ⟨h.1.1, h.2.1.1, h.2.2.1⟩

theorem applyMask_map_self {α : Type} (p : α → Bool) (ws : List α) :
    applyMask (ws.map p) ws = ws.filter p := by
  induction ws with
  | nil => rfl
  | cons w t ih => cases hp : p w <;> simp [applyMask, hp, ih, List.filter_cons]

theorem applyMask_length {α β : Type} (p : α → Bool) :
    ∀ (ws : List α) (xs : List β), xs.length = ws.length →
      (applyMask (ws.map p) xs).length = (ws.filter p).length
  | [], [], _ => rfl
  | [], _ :: _, h => by simp at h
  | _ :: _, [], h => by simp at h
  | w :: t, x :: xs, h => by
    cases hp : p w <;>
      simp [applyMask, hp, List.filter_cons, applyMask_length p t xs (by simpa using h)]

theorem applyMask_zip_filter {α : Type} (p : α → Bool) :
    ∀ (ws xs ys : List α), xs.length = ws.length → ys.length = ws.length →
      (applyMask (ws.map p) ws).zip
          ((applyMask (ws.map p) xs).zip (applyMask (ws.map p) ys)) =
        (ws.zip (xs.zip ys)).filter (fun q => p q.1)
  | [], [], [], _, _ => rfl
  | [], _ :: _, _, h, _ => by simp at h
  | [], [], _ :: _, _, h => by simp at h
  | _ :: _, [], _, h, _ => by simp at h
  | _ :: _, _ :: _, [], _, h => by simp at h
  | w :: t, x :: xs, y :: ys, h1, h2 => by
    cases hp : p w <;>
      simp [applyMask, hp, List.filter_cons,
        applyMask_zip_filter p t xs ys (by simpa using h1) (by simpa using h2)]

/-- C5: for parallel wavelength/flux/noise lists and a window
`(start, end_)`, `get_spectra_cuts` returns exactly the samples with
`start < wavelength < end_` (strict inequalities), as three equal-length
lists that preserve order and the wavelength-flux-noise pairing; when no
sample qualifies all three lists are empty (the filter of an
all-`false` mask). -/
theorem get_spectra_cuts_spec (start end_ : ℝ) (wavelengths spectra_1d noise_1d : List ℝ)
    (hs : spectra_1d.length = wavelengths.length)
    (hn : noise_1d.length = wavelengths.length) :
    (get_spectra_cuts start end_ wavelengths spectra_1d noise_1d).1 =
      wavelengths.filter (fun w => decide (start < w) && decide (w < end_)) ∧
    (get_spectra_cuts start end_ wavelengths spectra_1d noise_1d).2.1.length =
      (get_spectra_cuts start end_ wavelengths spectra_1d noise_1d).1.length ∧
    (get_spectra_cuts start end_ wavelengths spectra_1d noise_1d).2.2.length =
      (get_spectra_cuts start end_ wavelengths spectra_1d noise_1d).1.length ∧
    (get_spectra_cuts start end_ wavelengths spectra_1d noise_1d).1.zip
        ((get_spectra_cuts start end_ wavelengths spectra_1d noise_1d).2.1.zip
          (get_spectra_cuts start end_ wavelengths spectra_1d noise_1d).2.2) =
      (wavelengths.zip (spectra_1d.zip noise_1d)).filter
        (fun q => decide (start < q.1) && decide (q.1 < end_)) ∧
    ∀ w ∈ (get_spectra_cuts start end_ wavelengths spectra_1d noise_1d).1,
      start < w ∧ w < end_ := by
  have hc : get_spectra_cuts start end_ wavelengths spectra_1d noise_1d =
      (applyMask (wavelengths.map fun w => decide (start < w) && decide (w < end_)) wavelengths,
       applyMask (wavelengths.map fun w => decide (start < w) && decide (w < end_)) spectra_1d,
       applyMask (wavelengths.map fun w => decide (start < w) && decide (w < end_)) noise_1d) :=
    rfl
  rw [hc]
  refine ⟨applyMask_map_self _ wavelengths, ?_, ?_, ?_, ?_⟩
  · rw [applyMask_map_self, applyMask_length _ wavelengths spectra_1d hs]
  · rw [applyMask_map_self, applyMask_length _ wavelengths noise_1d hn]
  · exact applyMask_zip_filter _ wavelengths spectra_1d noise_1d hs hn
  · intro w hw
    rw [applyMask_map_self] at hw
    simpa using (List.mem_filter.mp hw).2

/-- Witness for C5 at wavelengths `[1, 2, 3]`, flux `[4, 5, 6]`, noise
`[7, 8, 9]`, window `(1, 3)` (which keeps exactly the middle sample). -/
theorem get_spectra_cuts_spec_witness :
    (get_spectra_cuts 1 3 [1, 2, 3] [4, 5, 6] [7, 8, 9]).1 =
      ([1, 2, 3] : List ℝ).filter (fun w => decide ((1:ℝ) < w) && decide (w < 3)) ∧
    (get_spectra_cuts 1 3 [1, 2, 3] [4, 5, 6] [7, 8, 9]).2.1.length =
      (get_spectra_cuts 1 3 [1, 2, 3] [4, 5, 6] [7, 8, 9]).1.length ∧
    (get_spectra_cuts 1 3 [1, 2, 3] [4, 5, 6] [7, 8, 9]).2.2.length =
      (get_spectra_cuts 1 3 [1, 2, 3] [4, 5, 6] [7, 8, 9]).1.length ∧
    (get_spectra_cuts 1 3 [1, 2, 3] [4, 5, 6] [7, 8, 9]).1.zip
        ((get_spectra_cuts 1 3 [1, 2, 3] [4, 5, 6] [7, 8, 9]).2.1.zip
          (get_spectra_cuts 1 3 [1, 2, 3] [4, 5, 6] [7, 8, 9]).2.2) =
      (([1, 2, 3] : List ℝ).zip (([4, 5, 6] : List ℝ).zip ([7, 8, 9] : List ℝ))).filter
        (fun q => decide ((1:ℝ) < q.1) && decide (q.1 < 3)) ∧
    ∀ w ∈ (get_spectra_cuts 1 3 [1, 2, 3] [4, 5, 6] [7, 8, 9]).1,
      (1:ℝ) < w ∧ w < 3 :=
  get_spectra_cuts_spec 1 3 [1, 2, 3] [4, 5, 6] [7, 8, 9] rfl rfl

theorem resolveFwhms_length (f : Fwhms) (lines : List ℝ) (h : fwhmsMatch f lines.length) :
    (resolveFwhms f lines).length = lines.length := by
  cases f with
  | scalar g => simp [resolveFwhms]
  | perLine fs => simpa [resolveFwhms, fwhmsMatch] using h

theorem get_spectra_model_length (x : List ℝ) (mu fwhm a ca cs : ℝ)
    (lt : LineType) (g : ℝ) :
    (get_spectra_model x mu fwhm a ca cs lt g).length = x.length := by
  cases lt <;>
    simp [get_spectra_model, get_pixel_integrated_gaussian, get_pixel_integrated_voigt,
      get_pixel_integrated_lorentzian]

theorem mem_getLastD {α : Type} (d : α) : ∀ (l : List α), l ≠ [] → l.getLastD d ∈ l
  | [], h => absurd rfl h
  | b :: t, _ => by
    rw [List.getLastD_cons]
    exact List.getLastD_mem_cons t b

theorem best_linear_fit_model_vectors_eq (velocity : ℝ) (fwhms : Fwhms)
    (wavelengths lines : List ℝ) (lt : LineType) (vg : ℝ)
    (hl : lines ≠ []) (hf : fwhmsMatch fwhms lines.length) :
    best_linear_fit_model_vectors velocity fwhms wavelengths lines lt vg =
      ((resolveFwhms fwhms lines).zip lines).map (fun q =>
        get_spectra_model wavelengths (q.2 * (1 + velocity / light_speed)) q.1 1 0 0 lt vg)
      ++ [List.replicate wavelengths.length 1,
          (List.range wavelengths.length).map (Nat.cast : ℕ → ℝ)] := by
  have hlen : ((resolveFwhms fwhms lines).zip lines).length = lines.length := by
    rw [List.length_zip, resolveFwhms_length fwhms lines hf, min_self]
  have hne : ((resolveFwhms fwhms lines).zip lines).map (fun q =>
      get_spectra_model wavelengths (q.2 * (1 + velocity / light_speed)) q.1 1 0 0 lt vg)
      ≠ [] := by
    intro h
    apply hl
    have hzero := congrArg List.length h
    simp only [List.length_map, hlen, List.length_nil] at hzero
    exact List.length_eq_zero.mp hzero
  have hn : ((((resolveFwhms fwhms lines).zip lines).map (fun q =>
      get_spectra_model wavelengths (q.2 * (1 + velocity / light_speed)) q.1 1 0 0 lt vg)
      ).getLastD []).length = wavelengths.length := by
    obtain ⟨q, _, hq⟩ := List.mem_map.mp (mem_getLastD _ _ hne)
    rw [← hq, get_spectra_model_length]
  simp only [best_linear_fit_model_vectors]
  rw [hn]

/-- C3: for a non-empty line list of length `L`, a scalar-or-matching `fwhms`
specification, and a wavelength grid of length `N ≥ 2`, the composite model
builder produces exactly `L + 2` vectors of length `N`: one pixel-integrated
unit-amplitude line model per rest wavelength at
`mu = line * (1 + velocity / light_speed)`, then a constant-1 vector and the
`0..N-1` pixel-index ramp. -/
theorem composite_model_builder_spec (velocity : ℝ) (fwhms : Fwhms)
    (wavelengths lines : List ℝ) (line_type : LineType) (voigt_gamma : ℝ)
    (hl : lines ≠ []) (hw : 2 ≤ wavelengths.length)
    (hf : fwhmsMatch fwhms lines.length) :
    best_linear_fit_model_vectors velocity fwhms wavelengths lines line_type voigt_gamma =
      ((resolveFwhms fwhms lines).zip lines).map (fun q =>
        get_spectra_model wavelengths (q.2 * (1 + velocity / light_speed)) q.1 1 0 0
          line_type voigt_gamma)
      ++ [List.replicate wavelengths.length 1,
          (List.range wavelengths.length).map (Nat.cast : ℕ → ℝ)] ∧
    (best_linear_fit_model_vectors velocity fwhms wavelengths lines line_type
      voigt_gamma).length = lines.length + 2 ∧
    ∀ v ∈ best_linear_fit_model_vectors velocity fwhms wavelengths lines line_type
      voigt_gamma, v.length = wavelengths.length := by
  have he := best_linear_fit_model_vectors_eq velocity fwhms wavelengths lines
    line_type voigt_gamma hl hf
  refine ⟨he, ?_, ?_⟩
  · rw [he]
    simp [List.length_zip, resolveFwhms_length fwhms lines hf]
  · intro v hv
    rw [he] at hv
    rcases List.mem_append.mp hv with hm | hm
    · obtain ⟨q, _, hq⟩ := List.mem_map.mp hm
      rw [← hq, get_spectra_model_length]
    · simp only [List.mem_cons, List.not_mem_nil, or_false] at hm
      rcases hm with h1 | h1
      · rw [h1, List.length_replicate]
      · rw [h1, List.length_map, List.length_range]

/-- Witness for C3 at `velocity = 0`, scalar `fwhm = 1`, grid `[0, 1]`,
lines `[1]`, Gaussian profile. -/
theorem composite_model_builder_spec_witness :
    best_linear_fit_model_vectors 0 (Fwhms.scalar 1) [0, 1] [1] LineType.gaussian 1 =
      ((resolveFwhms (Fwhms.scalar 1) [1]).zip [1]).map (fun q =>
        get_spectra_model [0, 1] (q.2 * (1 + 0 / light_speed)) q.1 1 0 0
          LineType.gaussian 1)
      ++ [List.replicate ([0, 1] : List ℝ).length 1,
          (List.range ([0, 1] : List ℝ).length).map (Nat.cast : ℕ → ℝ)] ∧
    (best_linear_fit_model_vectors 0 (Fwhms.scalar 1) [0, 1] [1]
      LineType.gaussian 1).length = 3 ∧
    ∀ v ∈ best_linear_fit_model_vectors 0 (Fwhms.scalar 1) [0, 1] [1]
      LineType.gaussian 1, v.length = ([0, 1] : List ℝ).length :=
  composite_model_builder_spec 0 (Fwhms.scalar 1) [0, 1] [1] LineType.gaussian 1
    (by simp) (by simp) trivial

theorem getLastD_map_length {β : Type} (T : List β) (f : β → List ℝ) (N : ℕ)
    (hne : T ≠ []) (hf : ∀ q, (f q).length = N) :
    ((T.map f).getLastD []).length = N := by
  have hne2 : T.map f ≠ [] := fun h => hne (List.map_eq_nil_iff.mp h)
  obtain ⟨q, _, hq⟩ := List.mem_map.mp (mem_getLastD _ _ hne2)
  rw [← hq, hf]

theorem headD_map_length {β : Type} (T : List β) (f : β → List ℝ) (N : ℕ)
    (hne : T ≠ []) (hf : ∀ q, (f q).length = N) :
    ((T.map f).headD []).length = N := by
  cases T with
  | nil => exact absurd rfl hne
  | cons t ts => simpa using hf t

theorem matVec_length (cols : List (List ℝ)) (cs : List ℝ) :
    (matVec cols cs).length = (cols.headD []).length := by
  simp [matVec]

/-- C1: in `best_linear_fit_model`, for every built model-vector list, flux
and strictly positive noise, the coefficients come from the unconstrained
`lstsq` on the `sqrt (1/noise^2)`-weighted system whenever it succeeds, and
exactly when it fails with a `LinAlgError` the solver retries `nnls` on the
same weighted system, returning (no error escapes) coefficients that are all
non-negative under the `nnls` contract. -/
theorem weighted_solver_fallback
    (lstsq : List (List ℝ) → List ℝ → Except LinAlgError (List ℝ))
    (nnls : List (List ℝ) → List ℝ → List ℝ)
    (velocity : ℝ) (fwhms : Fwhms) (wavelengths spectra noise lines : List ℝ)
    (line_type : LineType) (voigt_gamma : ℝ)
    (hnoise : ∀ x ∈ noise, 0 < x)
    (hnn : ∀ (A : List (List ℝ)) (b : List ℝ), ∀ x ∈ nnls A b, 0 ≤ x) :
    (∀ c, lstsq (weightCols (best_linear_fit_model_vectors velocity fwhms wavelengths
          lines line_type voigt_gamma) noise) (weightVec spectra noise) = Except.ok c →
      best_linear_fit_model lstsq nnls velocity fwhms wavelengths spectra noise lines
          line_type voigt_gamma true =
        FitResult.withAmp (matVec (best_linear_fit_model_vectors velocity fwhms
          wavelengths lines line_type voigt_gamma) c) c) ∧
    (∀ e, lstsq (weightCols (best_linear_fit_model_vectors velocity fwhms wavelengths
          lines line_type voigt_gamma) noise) (weightVec spectra noise) = Except.error e →
      best_linear_fit_model lstsq nnls velocity fwhms wavelengths spectra noise lines
          line_type voigt_gamma true =
        FitResult.withAmp
          (matVec (best_linear_fit_model_vectors velocity fwhms wavelengths lines
            line_type voigt_gamma)
            (nnls (weightCols (best_linear_fit_model_vectors velocity fwhms wavelengths
              lines line_type voigt_gamma) noise) (weightVec spectra noise)))
          (nnls (weightCols (best_linear_fit_model_vectors velocity fwhms wavelengths
            lines line_type voigt_gamma) noise) (weightVec spectra noise)) ∧
      ∀ x ∈ nnls (weightCols (best_linear_fit_model_vectors velocity fwhms wavelengths
        lines line_type voigt_gamma) noise) (weightVec spectra noise), 0 ≤ x) := by
  constructor
  · intro c h
    simp [best_linear_fit_model, h]
  · intro e h
    exact ⟨by simp [best_linear_fit_model, h], hnn _ _⟩

/-- Witness for C1: with an always-failing `lstsq` and an `nnls` stub that
returns `[]`, the fallback path is taken and the call returns normally. -/
theorem weighted_solver_fallback_witness :
    best_linear_fit_model (fun _ _ => Except.error ⟨⟩) (fun _ _ => [])
        0 (Fwhms.scalar 1) [0, 1] [0, 0] [1, 1] [1] LineType.gaussian 1 true =
      FitResult.withAmp
        (matVec (best_linear_fit_model_vectors 0 (Fwhms.scalar 1) [0, 1] [1]
          LineType.gaussian 1) []) [] := by
  have hnoise : ∀ x ∈ ([1, 1] : List ℝ), 0 < x := by
    intro x hx
    simp only [List.mem_cons, List.not_mem_nil, or_false, or_self] at hx
    rw [hx]; norm_num
  have h := (weighted_solver_fallback (fun _ _ => Except.error ⟨⟩) (fun _ _ => [])
      0 (Fwhms.scalar 1) [0, 1] [0, 0] [1, 1] [1] LineType.gaussian 1 hnoise
      (by intro A b x hx; simp at hx)).2 ⟨⟩ rfl
  exact h.1

/-- C2: `best_linear_fit_model_simultaneous` obtains spectrum 1's coefficients
from the non-negative solver `nnls` for every input (no unconstrained path
exists), and fits spectrum 2 with a design matrix of exactly 3 columns — the
combined template `matVec` of spectrum 2's per-line model vectors with the
spectrum-1 coefficients minus their trailing constant/ramp entries, a
constant-1 column, and the `0..N-1` pixel ramp — solved by the same
inverse-variance-weighted `nnls`. -/
theorem coupled_solver_spec
    (nnls : List (List ℝ) → List ℝ → List ℝ)
    (velocity_1 velocity_2 : ℝ) (fwhms_1 fwhms_2 : Fwhms)
    (wavelengths_1 spectra_1 noise_1 wavelengths_2 spectra_2 noise_2 lines : List ℝ)
    (hl : lines ≠ [])
    (hf1 : fwhmsMatch fwhms_1 lines.length) (hf2 : fwhmsMatch fwhms_2 lines.length)
    (hnn : ∀ (A : List (List ℝ)) (b : List ℝ), (nnls A b).length = A.length) :
    let triples := (resolveFwhms fwhms_1 lines).zip ((resolveFwhms fwhms_2 lines).zip lines)
    let cols1 := triples.map (fun q =>
        get_spectra_model wavelengths_1 (q.2.2 * (1 + velocity_1 / light_speed)) q.1
          1 0 0 LineType.gaussian 1)
      ++ [List.replicate wavelengths_1.length 1,
          (List.range wavelengths_1.length).map (Nat.cast : ℕ → ℝ)]
    let c1 := nnls (weightCols cols1 noise_1) (weightVec spectra_1 noise_1)
    let cols2 := triples.map (fun q =>
        get_spectra_model wavelengths_2 (q.2.2 * (1 + velocity_2 / light_speed)) q.2.1
          1 0 0 LineType.gaussian 1)
    let tmpl := matVec cols2 (c1.take lines.length)
    let A2 := [tmpl, List.replicate wavelengths_2.length 1,
        (List.range wavelengths_2.length).map (Nat.cast : ℕ → ℝ)]
    let c2 := nnls (weightCols A2 noise_2) (weightVec spectra_2 noise_2)
    best_linear_fit_model_simultaneous nnls velocity_1 fwhms_1 velocity_2 fwhms_2
      wavelengths_1 spectra_1 noise_1 wavelengths_2 spectra_2 noise_2 lines =
      (matVec cols1 c1, matVec A2 c2) ∧ A2.length = 3 := by
  have hT : ((resolveFwhms fwhms_1 lines).zip
      ((resolveFwhms fwhms_2 lines).zip lines)).length = lines.length := by
    simp [List.length_zip, resolveFwhms_length fwhms_1 lines hf1,
      resolveFwhms_length fwhms_2 lines hf2]
  have hTne : (resolveFwhms fwhms_1 lines).zip
      ((resolveFwhms fwhms_2 lines).zip lines) ≠ [] := by
    intro h
    have h0 := congrArg List.length h
    rw [hT] at h0
    simp only [List.length_nil] at h0
    exact hl (List.length_eq_zero.mp h0)
  have hlast : ((((resolveFwhms fwhms_1 lines).zip
        ((resolveFwhms fwhms_2 lines).zip lines)).map (fun q =>
        get_spectra_model wavelengths_1 (q.2.2 * (1 + velocity_1 / light_speed)) q.1
          1 0 0 LineType.gaussian 1)).getLastD []).length = wavelengths_1.length :=
    getLastD_map_length _ _ _ hTne (fun q => get_spectra_model_length _ _ _ _ _ _ _ _)
  have hhead : ((((resolveFwhms fwhms_1 lines).zip
        ((resolveFwhms fwhms_2 lines).zip lines)).map (fun q =>
        get_spectra_model wavelengths_2 (q.2.2 * (1 + velocity_2 / light_speed)) q.2.1
          1 0 0 LineType.gaussian 1)).headD []).length = wavelengths_2.length :=
    headD_map_length _ _ _ hTne (fun q => get_spectra_model_length _ _ _ _ _ _ _ _)
  refine ⟨?_, rfl⟩
  simp only [best_linear_fit_model_simultaneous]
  rw [hlast]
  have htake : (nnls (weightCols ((((resolveFwhms fwhms_1 lines).zip
        ((resolveFwhms fwhms_2 lines).zip lines)).map (fun q =>
        get_spectra_model wavelengths_1 (q.2.2 * (1 + velocity_1 / light_speed)) q.1
          1 0 0 LineType.gaussian 1))
      ++ [List.replicate wavelengths_1.length 1,
          (List.range wavelengths_1.length).map (Nat.cast : ℕ → ℝ)]) noise_1)
      (weightVec spectra_1 noise_1)).length - 2 = lines.length := by
    rw [hnn]
    simp [weightCols, hT]
  rw [htake]
  have hsm : (matVec ((((resolveFwhms fwhms_1 lines).zip
        ((resolveFwhms fwhms_2 lines).zip lines)).map (fun q =>
        get_spectra_model wavelengths_2 (q.2.2 * (1 + velocity_2 / light_speed)) q.2.1
          1 0 0 LineType.gaussian 1)))
      (List.take lines.length (nnls (weightCols ((((resolveFwhms fwhms_1 lines).zip
        ((resolveFwhms fwhms_2 lines).zip lines)).map (fun q =>
        get_spectra_model wavelengths_1 (q.2.2 * (1 + velocity_1 / light_speed)) q.1
          1 0 0 LineType.gaussian 1))
      ++ [List.replicate wavelengths_1.length 1,
          (List.range wavelengths_1.length).map (Nat.cast : ℕ → ℝ)]) noise_1)
      (weightVec spectra_1 noise_1)))).length = wavelengths_2.length := by
    rw [matVec_length]
    exact hhead
  rw [hsm]

/-- Witness for C2 at one line, identical two-pixel spectra, and an `nnls`
stub returning the zero vector of matching length. -/
theorem coupled_solver_spec_witness :
    let triples := (resolveFwhms (Fwhms.scalar 1) [1]).zip
      ((resolveFwhms (Fwhms.scalar 1) [1]).zip [1])
    let cols1 := triples.map (fun q =>
        get_spectra_model [0, 1] (q.2.2 * (1 + 0 / light_speed)) q.1 1 0 0
          LineType.gaussian 1)
      ++ [List.replicate ([0, 1] : List ℝ).length 1,
          (List.range ([0, 1] : List ℝ).length).map (Nat.cast : ℕ → ℝ)]
    let c1 := List.replicate (weightCols cols1 [1, 1]).length (0 : ℝ)
    let cols2 := triples.map (fun q =>
        get_spectra_model [0, 1] (q.2.2 * (1 + 0 / light_speed)) q.2.1 1 0 0
          LineType.gaussian 1)
    let tmpl := matVec cols2 (c1.take ([1] : List ℝ).length)
    let A2 := [tmpl, List.replicate ([0, 1] : List ℝ).length 1,
        (List.range ([0, 1] : List ℝ).length).map (Nat.cast : ℕ → ℝ)]
    let c2 := List.replicate (weightCols A2 [1, 1]).length (0 : ℝ)
    best_linear_fit_model_simultaneous (fun A _ => List.replicate A.length 0)
        0 (Fwhms.scalar 1) 0 (Fwhms.scalar 1)
        [0, 1] [0, 0] [1, 1] [0, 1] [0, 0] [1, 1] [1] =
      (matVec cols1 c1, matVec A2 c2) ∧ A2.length = 3 :=
  coupled_solver_spec (fun A _ => List.replicate A.length 0) 0 0 (Fwhms.scalar 1)
    (Fwhms.scalar 1) [0, 1] [0, 0] [1, 1] [0, 1] [0, 0] [1, 1] [1]
    (by simp) trivial trivial (fun A b => by simp)
